import Mathlib

/-!
Shallow embedding of the analytics engine of `src/utils/analytics.py`
(comPASS-mvp). Percentages and scores are modelled as exact rationals;
the source's `round(x, 2)` display rounding is modelled by `round2`
(round-half-to-even at two decimals, Python's rounding mode). The only
numeric quantity not representable in `ℚ` is the returned standard
deviation (a square root); no claim inspects that returned field, so the
result records omit it, while the source's comparison `std_dev < 15` is
embedded as the equivalent `variance < 15 ^ 2` (both sides nonnegative).
-/

/-- Question document, fields used by the analytics engine. -/
structure Question where
  id : String
  question : String
  topic : String
  correct_option : String
  deriving DecidableEq, Repr

/-- Submission document, fields used by the analytics engine. The Python
`answers` dict (insertion-ordered) is an association list of
`(question_id, selected_option)` pairs. -/
structure Submission where
  student_name : String
  answers : List (String × String)
  score : ℚ
  percentage : ℚ
  total_questions : ℕ
  deriving DecidableEq, Repr

/-- One row of the dataframe built by `prepare_analytics_data`. -/
structure Response where
  student_name : String
  question_id : String
  question : String
  topic : String
  correct_option : String
  selected_option : String
  is_correct : Bool
  score : ℚ
  percentage : ℚ
  deriving DecidableEq, Repr

/-- Arithmetic mean (`np.mean`); on `[]` the `ℚ` division by zero yields 0,
callers guard the empty case exactly where the source does. -/
def mean (ps : List ℚ) : ℚ := ps.sum / ps.length

/-- Population variance, the square of `np.std`. -/
def popVariance (ps : List ℚ) : ℚ :=
  ((ps.map (fun p => (p - mean ps) ^ 2)).sum) / ps.length

/-- Round to the nearest integer, ties to even (Python `round`). -/
def roundHalfEven (q : ℚ) : ℤ :=
  if q - ⌊q⌋ < 1 / 2 then ⌊q⌋
  else if 1 / 2 < q - ⌊q⌋ then ⌊q⌋ + 1
  else if ⌊q⌋ % 2 = 0 then ⌊q⌋ else ⌊q⌋ + 1

/-- Python `round(x, 2)`. -/
def round2 (q : ℚ) : ℚ := (roundHalfEven (q * 100) : ℚ) / 100

/-- Embedding of `questions_lookup = {q['id']: q for q in questions}` followed by a key
lookup: a later duplicate id overwrites an earlier one, which the left
fold reproduces. -/
def questions_lookup (questions : List Question) (qid : String) : Option Question :=
  questions.foldl (fun acc q => if q.id = qid then some q else acc) none

/-- Python `str.upper()`: character-wise uppercase. This is extensionally
`String.toUpper`, restated structurally over the character list so that the
kernel can evaluate it on concrete strings. -/
def strUpper (s : String) : String := ⟨s.data.map Char.toUpper⟩

/-- Python `str.strip()` (no argument): drop leading and trailing
whitespace, stated structurally over the character list. Used only by the
spec-side comparison definition; the source itself never trims. -/
def strTrim (s : String) : String :=
  ⟨((s.data.dropWhile (·.isWhitespace)).reverse.dropWhile
      (·.isWhitespace)).reverse⟩

/-- Body of the joiner loop for one `(question_id, selected_option)` pair of
one submission: emit a row when the id matches a known Question, else skip.
`is_correct` is `selected_option.upper() == question['correct_option'].upper()`. -/
def makeResponse (questions : List Question) (s : Submission)
    (pair : String × String) : Option Response :=
  match questions_lookup questions pair.1 with
  | some q =>
      some { student_name := s.student_name
             question_id := pair.1
             question := q.question
             topic := q.topic
             correct_option := q.correct_option
             selected_option := pair.2
             is_correct := strUpper pair.2 == strUpper q.correct_option
             score := s.score
             percentage := s.percentage }
  | none => none

/-- Embedding of `prepare_analytics_data`: the flat response record set (the dataframe
rows, in construction order). -/
def prepare_analytics_data (questions : List Question)
    (submissions : List Submission) : List Response :=
  submissions.flatMap (fun s => s.answers.filterMap (makeResponse questions s))

/-! ## Risk classifier -/

/-- The three risk tiers. -/
inductive RiskLevel where
  | high
  | medium
  | low
  deriving DecidableEq, Repr

/-- The `if percentage < high_risk_threshold / elif percentage <
medium_risk_threshold / else` chain of `classify_student_risk`. -/
def riskBucket (high_risk_threshold medium_risk_threshold p : ℚ) : RiskLevel :=
  if p < high_risk_threshold then .high
  else if p < medium_risk_threshold then .medium
  else .low

/-- The `student_data` record appended to a bucket. -/
structure StudentRisk where
  name : String
  percentage : ℚ
  score : ℚ
  total : ℕ
  deriving DecidableEq, Repr

/-- `student_data` built from a submission. -/
def student_data (s : Submission) : StudentRisk :=
  { name := s.student_name, percentage := s.percentage,
    score := s.score, total := s.total_questions }

/-- The `stats` sub-dictionary of `classify_student_risk`. -/
structure RiskStats where
  high_risk_count : ℕ
  medium_risk_count : ℕ
  low_risk_count : ℕ
  total_students : ℕ
  deriving DecidableEq, Repr

/-- Result of `classify_student_risk`. -/
structure RiskResult where
  high_risk : List StudentRisk
  medium_risk : List StudentRisk
  low_risk : List StudentRisk
  stats : RiskStats
  deriving DecidableEq, Repr

instance : DecidableRel (fun a b : StudentRisk => a.percentage ≤ b.percentage) :=
  fun a b => inferInstanceAs (Decidable (a.percentage ≤ b.percentage))

instance : DecidableRel (fun a b : StudentRisk => b.percentage ≤ a.percentage) :=
  fun a b => inferInstanceAs (Decidable (b.percentage ≤ a.percentage))

/-- Embedding of `classify_student_risk`: each submission goes to the bucket of
`riskBucket`; high and medium sort ascending by percentage, low descending
(Python `list.sort` is stable, as is `insertionSort`). -/
def classify_student_risk (submissions : List Submission)
    (high_risk_threshold : ℚ := 40) (medium_risk_threshold : ℚ := 65) :
    RiskResult :=
  let bucket := fun s =>
    riskBucket high_risk_threshold medium_risk_threshold s.percentage
  let high_risk :=
    ((submissions.filter (fun s => bucket s = .high)).map student_data).insertionSort
      (fun a b => a.percentage ≤ b.percentage)
  let medium_risk :=
    ((submissions.filter (fun s => bucket s = .medium)).map student_data).insertionSort
      (fun a b => a.percentage ≤ b.percentage)
  let low_risk :=
    ((submissions.filter (fun s => bucket s = .low)).map student_data).insertionSort
      (fun a b => b.percentage ≤ a.percentage)
  { high_risk := high_risk
    medium_risk := medium_risk
    low_risk := low_risk
    stats :=
      { high_risk_count := high_risk.length
        medium_risk_count := medium_risk.length
        low_risk_count := low_risk.length
        total_students := submissions.length } }

/-! ## Class readiness scorer -/

/-- Result of `calculate_class_readiness` (the returned `std_deviation`
field — a square root — is the one field omitted, see the header note). -/
structure ReadinessResult where
  readiness_score : ℚ
  status : String
  average_percentage : ℚ
  high_performers_pct : ℚ
  at_risk_pct : ℚ
  recommendation : String
  deriving DecidableEq, Repr

/-- The readiness score after the three sequential adjustments of
`calculate_class_readiness`, before clamping: starting from the mean,
`+5` when `std_dev < 15` (embedded as `popVariance < 15 ^ 2`), `+3` when
`high_performers_pct > 50`, `-10` when `at_risk_pct > 30`, the three
conditions computed on the base metrics before any adjustment. -/
def readinessAdjusted (ps : List ℚ) : ℚ :=
  let avg_percentage := mean ps
  let high_performers := (ps.filter (fun p => 70 ≤ p)).length
  let at_risk_students := (ps.filter (fun p => p < 40)).length
  let high_performers_pct := ((high_performers : ℚ) / ps.length) * 100
  let at_risk_pct := ((at_risk_students : ℚ) / ps.length) * 100
  let score1 := if popVariance ps < 15 ^ 2 then avg_percentage + 5 else avg_percentage
  let score2 := if 50 < high_performers_pct then score1 + 3 else score1
  let score3 := if 30 < at_risk_pct then score2 - 10 else score2
  score3

/-- Clamp step `readiness_score = min(100, max(0, readiness_score))`. -/
def readinessClamped (ps : List ℚ) : ℚ :=
  min 100 (max 0 (readinessAdjusted ps))

/-- Embedding of `calculate_class_readiness`. -/
def calculate_class_readiness (submissions : List Submission) : ReadinessResult :=
  match submissions with
  | [] =>
      { readiness_score := 0
        status := "No Data"
        average_percentage := 0
        high_performers_pct := 0
        at_risk_pct := 0
        recommendation := "No submissions to analyze" }
  | _ :: _ =>
      let percentages := submissions.map (·.percentage)
      let avg_percentage := mean percentages
      let high_performers := (percentages.filter (fun p => 70 ≤ p)).length
      let at_risk_students := (percentages.filter (fun p => p < 40)).length
      let high_performers_pct := ((high_performers : ℚ) / submissions.length) * 100
      let at_risk_pct := ((at_risk_students : ℚ) / submissions.length) * 100
      let readiness_score := readinessClamped percentages
      let status :=
        if 75 ≤ readiness_score then "Exam Ready"
        else if 60 ≤ readiness_score then "Borderline"
        else "Not Ready"
      let recommendation :=
        if 75 ≤ readiness_score then
          "Class is well-prepared. Focus on revision and practice."
        else if 60 ≤ readiness_score then
          "Class needs targeted intervention on weak topics. 1-2 weeks of focused revision recommended."
        else
          "Significant gaps identified. Conduct intensive revision sessions."
      { readiness_score := round2 readiness_score
        status := status
        average_percentage := round2 avg_percentage
        high_performers_pct := round2 high_performers_pct
        at_risk_pct := round2 at_risk_pct
        recommendation := recommendation }

/-! ## Topic aggregator -/

/-- Entry of a topic's statistics dictionary. -/
structure TopicStat where
  accuracy : ℚ
  correct : ℕ
  total_attempts : ℕ
  total_questions : ℕ
  students_attempted : ℕ
  deriving DecidableEq, Repr

/-- Distinct values in first-occurrence order (`pandas.unique` /
`nunique`). -/
def uniqueFirst (l : List String) : List String :=
  l.foldl (fun acc t => if t ∈ acc then acc else acc ++ [t]) []

/-- Body of the per-topic loop of `calculate_topic_performance` on the
response dataframe `df`. -/
def topicStatOf (questions : List Question) (df : List Response)
    (topic : String) : TopicStat :=
  let topic_data := df.filter (fun r => r.topic = topic)
  let correct_count := (topic_data.filter (fun r => r.is_correct)).length
  let total_attempts := topic_data.length
  let accuracy : ℚ :=
    if 0 < total_attempts then (correct_count : ℚ) / total_attempts * 100 else 0
  let students_attempted := (uniqueFirst (topic_data.map (·.student_name))).length
  { accuracy := round2 accuracy
    correct := correct_count
    total_attempts := total_attempts
    total_questions := (questions.filter (fun q => q.topic = topic)).length
    students_attempted := students_attempted }

/-- Embedding of `calculate_topic_performance`: one entry per topic of the response
dataframe (`df['topic'].unique()`), keyed in first-occurrence order.
`total_questions` comes from grouping the Questions themselves by topic. -/
def calculate_topic_performance (questions : List Question)
    (submissions : List Submission) : List (String × TopicStat) :=
  let df := prepare_analytics_data questions submissions
  (uniqueFirst (df.map (·.topic))).map (fun topic =>
    (topic, topicStatOf questions df topic))

instance : DecidableRel (fun a b : String × ℚ => a.2 ≤ b.2) :=
  fun a b => inferInstanceAs (Decidable (a.2 ≤ b.2))

instance : DecidableRel (fun a b : String × ℚ => b.2 ≤ a.2) :=
  fun a b => inferInstanceAs (Decidable (b.2 ≤ a.2))

/-- Embedding of `identify_weak_topics`: `(topic, accuracy)` pairs with accuracy below
the threshold, sorted ascending by accuracy (stable). -/
def identify_weak_topics (topic_performance : List (String × TopicStat))
    (threshold : ℚ := 60) : List (String × ℚ) :=
  ((topic_performance.filter (fun e => e.2.accuracy < threshold)).map
      (fun e => (e.1, e.2.accuracy))).insertionSort
    (fun a b => a.2 ≤ b.2)

/-- Embedding of `identify_strong_topics`: pairs with accuracy at or above the
threshold, sorted descending by accuracy (stable). -/
def identify_strong_topics (topic_performance : List (String × TopicStat))
    (threshold : ℚ := 80) : List (String × ℚ) :=
  ((topic_performance.filter (fun e => threshold ≤ e.2.accuracy)).map
      (fun e => (e.1, e.2.accuracy))).insertionSort
    (fun a b => b.2 ≤ a.2)

/-! ## Descriptive statistics -/

/-- Result of `calculate_test_statistics` for a non-empty input (the
returned `std_deviation` square root is again omitted). -/
structure TestStats where
  mean : ℚ
  median : ℚ
  min_score : ℚ
  max_score : ℚ
  q1 : ℚ
  q2 : ℚ
  q3 : ℚ
  deriving DecidableEq, Repr

/-- Embedding of `np.percentile(ps, p)` with the default linear interpolation:
index `h = p/100 * (n-1)` into the ascending sort, interpolating between
the neighbouring elements. -/
def percentileLinear (ps : List ℚ) (p : ℚ) : ℚ :=
  let sortedAsc := ps.insertionSort (· ≤ ·)
  let n := ps.length
  let h := p / 100 * ((n : ℚ) - 1)
  let lo := ⌊h⌋.toNat
  let hi := min (lo + 1) (n - 1)
  let frac := h - (lo : ℚ)
  sortedAsc.getD lo 0 + frac * (sortedAsc.getD hi 0 - sortedAsc.getD lo 0)

/-- Embedding of `calculate_test_statistics`; the Python empty-input `{}` is `none`. -/
def calculate_test_statistics (submissions : List Submission) :
    Option TestStats :=
  match submissions with
  | [] => none
  | _ :: _ =>
      let percentages := submissions.map (·.percentage)
      some
        { mean := round2 (mean percentages)
          median := round2 (percentileLinear percentages 50)
          min_score := round2 (percentages.foldl min (percentages.headD 0))
          max_score := round2 (percentages.foldl max (percentages.headD 0))
          q1 := round2 (percentileLinear percentages 25)
          q2 := round2 (percentileLinear percentages 50)
          q3 := round2 (percentileLinear percentages 75) }

/-! ## Comparative analyzer -/

/-- Result of `compare_student_to_class`. -/
structure ComparisonResult where
  student_percentage : ℚ
  class_average : ℚ
  difference : ℚ
  percentile : ℚ
  rank : ℕ
  total_students : ℕ
  performance_category : String
  deriving DecidableEq, Repr

/-- Embedding of `compare_student_to_class`. The function is partial: on an empty
cohort the percentile division raises `ZeroDivisionError`, and when the
student's exact percentage is absent from the cohort
`sorted_scores.index(student_pct)` raises `ValueError`; both failure modes
are `none`. -/
def compare_student_to_class (student_submission : Submission)
    (all_submissions : List Submission) : Option ComparisonResult :=
  let student_pct := student_submission.percentage
  let all_percentages := all_submissions.map (·.percentage)
  if all_percentages.length = 0 then none
  else
    let class_avg := mean all_percentages
    let difference := student_pct - class_avg
    let percentile :=
      ((all_percentages.filter (fun p => p ≤ student_pct)).length : ℚ)
        / all_percentages.length * 100
    let sorted_scores := all_percentages.insertionSort (fun a b => b ≤ a)
    if student_pct ∈ sorted_scores then
      let rank := sorted_scores.indexOf student_pct + 1
      let category :=
        if 75 ≤ percentile then "Top Performer"
        else if 50 ≤ percentile then "Above Average"
        else if 25 ≤ percentile then "Below Average"
        else "Needs Support"
      some
        { student_percentage := round2 student_pct
          class_average := round2 class_avg
          difference := round2 difference
          percentile := round2 percentile
          rank := rank
          total_students := all_submissions.length
          performance_category := category }
    else none

/-! ## Aggregation facade -/

/-- The `has_data: true` payload of `generate_comprehensive_analytics`. -/
structure AnalyticsData where
  total_submissions : ℕ
  total_questions : ℕ
  topic_performance : List (String × TopicStat)
  weak_topics : List (String × ℚ)
  strong_topics : List (String × ℚ)
  risk_classification : RiskResult
  class_readiness : ReadinessResult
  statistics : Option TestStats
  deriving DecidableEq, Repr

/-- Output of `generate_comprehensive_analytics`: either the two-field
`{error, has_data: false}` dictionary or the full report. -/
inductive AnalyticsReport where
  | noData (error : String)
  | withData (d : AnalyticsData)
  deriving DecidableEq, Repr

/-- The `has_data` field of the report. -/
def AnalyticsReport.has_data : AnalyticsReport → Bool
  | .noData _ => false
  | .withData _ => true

/-- Embedding of `generate_comprehensive_analytics`. -/
def generate_comprehensive_analytics (questions : List Question)
    (submissions : List Submission) : AnalyticsReport :=
  match submissions with
  | [] => .noData "No submissions available"
  | _ :: _ =>
      .withData
        { total_submissions := submissions.length
          total_questions := questions.length
          topic_performance := calculate_topic_performance questions submissions
          weak_topics :=
            identify_weak_topics (calculate_topic_performance questions submissions)
          strong_topics :=
            identify_strong_topics (calculate_topic_performance questions submissions)
          risk_classification := classify_student_risk submissions
          class_readiness := calculate_class_readiness submissions
          statistics := calculate_test_statistics submissions }

/-- Comparison as the spec words it for `is_correct` — case-insensitive and
whitespace-trimmed. This definition follows the spec sentence, not the
source, and exists only to be compared with the source's untrimmed
comparison in `makeResponse`. -/
def specTrimmedComparison (a b : String) : Bool :=
  strUpper (strTrim a) == strUpper (strTrim b)

instance : IsTotal ℚ (fun a b : ℚ => b ≤ a) :=
  ⟨fun a b => le_total b a⟩

instance : IsTrans ℚ (fun a b : ℚ => b ≤ a) :=
  ⟨fun _ _ _ h1 h2 => le_trans h2 h1⟩

/-! ## Helper lemmas -/

theorem riskBucket_eq_high_iff (hi med p : ℚ) :
    riskBucket hi med p = .high ↔ p < hi := by
  unfold riskBucket
  split_ifs with h1 h2
  · simp [h1]
  · constructor
    · intro h; exact absurd h (by simp)
    · intro h; exact absurd h h1
  · constructor
    · intro h; exact absurd h (by simp)
    · intro h; exact absurd h h1

theorem riskBucket_eq_medium_iff (hi med p : ℚ) :
    riskBucket hi med p = .medium ↔ hi ≤ p ∧ p < med := by
  unfold riskBucket
  split_ifs with h1 h2
  · constructor
    · intro h; exact absurd h (by simp)
    · rintro ⟨h3, _⟩; linarith
  · constructor
    · intro _; exact ⟨le_of_not_lt h1, h2⟩
    · intro _; rfl
  · constructor
    · intro h; exact absurd h (by simp)
    · rintro ⟨_, h4⟩; exact absurd h4 h2

theorem riskBucket_eq_low_iff (hi med p : ℚ) :
    riskBucket hi med p = .low ↔ hi ≤ p ∧ med ≤ p := by
  unfold riskBucket
  split_ifs with h1 h2
  · constructor
    · intro h; exact absurd h (by simp)
    · rintro ⟨h3, _⟩; linarith
  · constructor
    · intro h; exact absurd h (by simp)
    · rintro ⟨_, h4⟩; linarith
  · constructor
    · intro _; exact ⟨le_of_not_lt h1, le_of_not_lt h2⟩
    · intro _; rfl

theorem student_data_mem_map_filter (subs : List Submission)
    (p : Submission → Bool)
    (hp : ∀ s1 s2 : Submission, s1.percentage = s2.percentage → p s1 = p s2)
    (s : Submission) (hs : s ∈ subs) :
    (student_data s ∈ (subs.filter p).map student_data) ↔ p s = true := by
  constructor
  · intro h
    rw [List.mem_map] at h
    obtain ⟨s2, hs2, heq⟩ := h
    rw [List.mem_filter] at hs2
    have hpct : s2.percentage = s.percentage :=
      congrArg StudentRisk.percentage heq
    rw [← hp s2 s hpct]
    exact hs2.2
  · intro h
    exact List.mem_map_of_mem _ (List.mem_filter.mpr ⟨hs, h⟩)

theorem length_filter_riskBucket (subs : List Submission) (hi med : ℚ) :
    (subs.filter (fun s => riskBucket hi med s.percentage = .high)).length
      + (subs.filter (fun s => riskBucket hi med s.percentage = .medium)).length
      + (subs.filter (fun s => riskBucket hi med s.percentage = .low)).length
      = subs.length := by
  induction subs with
  | nil => simp
  | cons a l ih =>
      cases h : riskBucket hi med a.percentage <;>
        simp [List.filter_cons, h] <;> omega

theorem questions_lookup_foldl_aux (qid : String) :
    ∀ (qs : List Question) (acc : Option Question),
      qs.foldl (fun acc q => if q.id = qid then some q else acc) acc = none
        ↔ acc = none ∧ ∀ q ∈ qs, q.id ≠ qid := by
  intro qs
  induction qs with
  | nil => intro acc; simp
  | cons a l ih =>
      intro acc
      rw [List.foldl_cons, ih]
      by_cases h : a.id = qid
      · rw [if_pos h]
        simp [h]
      · rw [if_neg h]
        constructor
        · rintro ⟨h1, h2⟩
          refine ⟨h1, ?_⟩
          intro q hq
          rcases hq with _ | hq
          · exact h
          · exact h2 _ (by assumption)
        · rintro ⟨h1, h2⟩
          exact ⟨h1, fun q hq => h2 q (List.mem_cons_of_mem _ hq)⟩

theorem questions_lookup_eq_none_iff (qs : List Question) (qid : String) :
    questions_lookup qs qid = none ↔ ∀ q ∈ qs, q.id ≠ qid := by
  unfold questions_lookup
  rw [questions_lookup_foldl_aux]
  simp

theorem makeResponse_eq_none_of_lookup_none (qs : List Question)
    (s : Submission) (pair : String × String)
    (h : questions_lookup qs pair.1 = none) :
    makeResponse qs s pair = none := by
  unfold makeResponse
  rw [h]

theorem filterMap_filter_of_none {α β : Type} (g : α → Option β)
    (p : α → Bool) (h : ∀ a, p a = false → g a = none) (l : List α) :
    (l.filter p).filterMap g = l.filterMap g := by
  induction l with
  | nil => rfl
  | cons a t ih =>
      cases hp : p a
      · rw [List.filter_cons_of_neg (by simp [hp]), List.filterMap_cons,
          h a hp, ih]
      · rw [List.filter_cons_of_pos (by simp [hp]), List.filterMap_cons,
          List.filterMap_cons, ih]

theorem mem_uniqueFirst_aux (a : String) :
    ∀ (l : List String) (acc : List String),
      a ∈ l.foldl (fun acc t => if t ∈ acc then acc else acc ++ [t]) acc
        ↔ a ∈ acc ∨ a ∈ l := by
  intro l
  induction l with
  | nil => intro acc; simp
  | cons b t ih =>
      intro acc
      rw [List.foldl_cons, ih]
      by_cases hb : b ∈ acc
      · rw [if_pos hb]
        constructor
        · rintro (h | h)
          · exact Or.inl h
          · exact Or.inr (List.mem_cons_of_mem _ h)
        · rintro (h | h)
          · exact Or.inl h
          · rcases List.mem_cons.mp h with rfl | h
            · exact Or.inl hb
            · exact Or.inr h
      · rw [if_neg hb]
        simp only [List.mem_append, List.mem_singleton, List.mem_cons]
        tauto

theorem mem_uniqueFirst (l : List String) (a : String) :
    a ∈ uniqueFirst l ↔ a ∈ l := by
  unfold uniqueFirst
  rw [mem_uniqueFirst_aux]
  simp

theorem lookup_map_self (f : String → TopicStat) :
    ∀ (l : List String) (t : String),
      List.lookup t (l.map (fun x => (x, f x)))
        = if t ∈ l then some (f t) else none := by
  intro l
  induction l with
  | nil => intro t; simp
  | cons x r ih =>
      intro t
      rw [List.map_cons]
      by_cases h : t = x
      · subst h
        simp [List.lookup]
      · have hbeq : (t == x) = false := beq_eq_false_iff_ne.mpr h
        simp [List.lookup, hbeq, ih, List.mem_cons, h]

theorem floor_le_roundHalfEven (q : ℚ) : ⌊q⌋ ≤ roundHalfEven q := by
  unfold roundHalfEven
  split_ifs <;> omega

theorem roundHalfEven_le_ceil (q : ℚ) : roundHalfEven q ≤ ⌈q⌉ := by
  have h1 : ⌊q⌋ ≤ ⌈q⌉ := Int.floor_le_ceil q
  have hc : q ≤ (⌈q⌉ : ℚ) := Int.le_ceil q
  unfold roundHalfEven
  split_ifs with ha hb hev
  · exact h1
  · have h2 : (⌊q⌋ : ℚ) < q := by linarith
    have h3 : ⌊q⌋ < ⌈q⌉ := by exact_mod_cast lt_of_lt_of_le h2 hc
    omega
  · exact h1
  · have ha2 : 1 / 2 ≤ q - ⌊q⌋ := le_of_not_lt ha
    have h2 : (⌊q⌋ : ℚ) < q := by linarith
    have h3 : ⌊q⌋ < ⌈q⌉ := by exact_mod_cast lt_of_lt_of_le h2 hc
    omega

theorem round2_nonneg (q : ℚ) (h : 0 ≤ q) : 0 ≤ round2 q := by
  unfold round2
  apply div_nonneg _ (by norm_num)
  have h100 : (0 : ℚ) ≤ q * 100 := by positivity
  have hfq : (0 : ℤ) ≤ ⌊q * 100⌋ := Int.floor_nonneg.mpr h100
  have hle := floor_le_roundHalfEven (q * 100)
  exact_mod_cast le_trans hfq hle

theorem round2_le_100 (q : ℚ) (h : q ≤ 100) : round2 q ≤ 100 := by
  unfold round2
  rw [div_le_iff₀ (by norm_num)]
  have hq : q * 100 ≤ ((10000 : ℤ) : ℚ) := by push_cast; linarith
  have hce : ⌈q * 100⌉ ≤ 10000 := Int.ceil_le.mpr hq
  have hle := roundHalfEven_le_ceil (q * 100)
  have h2 : ((roundHalfEven (q * 100) : ℤ) : ℚ) ≤ ((10000 : ℤ) : ℚ) := by
    exact_mod_cast le_trans hle hce
  push_cast at h2 ⊢
  linarith

theorem mem_bucket_sorted_iff (subs : List Submission) (hi med : ℚ)
    (r : StudentRisk → StudentRisk → Prop) [DecidableRel r] (lvl : RiskLevel)
    (s : Submission) (hs : s ∈ subs) :
    student_data s ∈
        ((subs.filter (fun x => riskBucket hi med x.percentage = lvl)).map
            student_data).insertionSort r
      ↔ riskBucket hi med s.percentage = lvl := by
  rw [List.mem_insertionSort,
    student_data_mem_map_filter subs _ (fun s1 s2 h => by simp only [h]) s hs]
  simp

/-! ## Claim theorems -/

/-- C1: with the default thresholds `high_cut = 40` and `medium_cut = 65`,
`classify_student_risk` places a submission in exactly one bucket — High
iff its percentage is `< 40`, Medium iff it is in `[40, 65)`, Low iff it
is `≥ 65`; in particular a submission at exactly 40 lands in Medium (not
High) and one at exactly 65 lands in Low (not Medium). -/
theorem classify_student_risk_default_buckets
    (submissions : List Submission) (s : Submission) (hs : s ∈ submissions) :
    (student_data s ∈ (classify_student_risk submissions 40 65).high_risk
        ↔ s.percentage < 40)
    ∧ (student_data s ∈ (classify_student_risk submissions 40 65).medium_risk
        ↔ 40 ≤ s.percentage ∧ s.percentage < 65)
    ∧ (student_data s ∈ (classify_student_risk submissions 40 65).low_risk
        ↔ 65 ≤ s.percentage)
    ∧ (s.percentage = 40 →
        student_data s ∈ (classify_student_risk submissions 40 65).medium_risk
        ∧ student_data s ∉ (classify_student_risk submissions 40 65).high_risk)
    ∧ (s.percentage = 65 →
        student_data s ∈ (classify_student_risk submissions 40 65).low_risk
        ∧ student_data s ∉ (classify_student_risk submissions 40 65).medium_risk) := by
  have e1 : (classify_student_risk submissions 40 65).high_risk
      = ((submissions.filter
            (fun x => riskBucket 40 65 x.percentage = RiskLevel.high)).map
          student_data).insertionSort
        (fun a b => a.percentage ≤ b.percentage) := rfl
  have e2 : (classify_student_risk submissions 40 65).medium_risk
      = ((submissions.filter
            (fun x => riskBucket 40 65 x.percentage = RiskLevel.medium)).map
          student_data).insertionSort
        (fun a b => a.percentage ≤ b.percentage) := rfl
  have e3 : (classify_student_risk submissions 40 65).low_risk
      = ((submissions.filter
            (fun x => riskBucket 40 65 x.percentage = RiskLevel.low)).map
          student_data).insertionSort
        (fun a b => b.percentage ≤ a.percentage) := rfl
  have hhigh : student_data s ∈ (classify_student_risk submissions 40 65).high_risk
      ↔ s.percentage < 40 := by
    rw [e1, mem_bucket_sorted_iff submissions 40 65 _ _ s hs,
      riskBucket_eq_high_iff]
  have hmed : student_data s ∈ (classify_student_risk submissions 40 65).medium_risk
      ↔ 40 ≤ s.percentage ∧ s.percentage < 65 := by
    rw [e2, mem_bucket_sorted_iff submissions 40 65 _ _ s hs,
      riskBucket_eq_medium_iff]
  have hlow : student_data s ∈ (classify_student_risk submissions 40 65).low_risk
      ↔ 65 ≤ s.percentage := by
    rw [e3, mem_bucket_sorted_iff submissions 40 65 _ _ s hs,
      riskBucket_eq_low_iff]
    constructor
    · rintro ⟨_, h⟩; exact h
    · intro h; exact ⟨by linarith, h⟩
  refine ⟨hhigh, hmed, hlow, ?_, ?_⟩
  · intro h40
    refine ⟨hmed.mpr ⟨le_of_eq h40.symm, by rw [h40]; norm_num⟩, ?_⟩
    intro hmem
    have := hhigh.mp hmem
    rw [h40] at this
    exact absurd this (by norm_num)
  · intro h65
    refine ⟨hlow.mpr (le_of_eq h65.symm), ?_⟩
    intro hmem
    have := (hmed.mp hmem).2
    rw [h65] at this
    exact absurd this (by norm_num)

/-- C1 witness: in a one-element class with percentage exactly 40 the
submission is classified Medium. -/
theorem classify_student_risk_default_buckets_witness :
    (⟨"a", [], 4, 40, 10⟩ : Submission) ∈ [(⟨"a", [], 4, 40, 10⟩ : Submission)]
    ∧ student_data ⟨"a", [], 4, 40, 10⟩
        ∈ (classify_student_risk [⟨"a", [], 4, 40, 10⟩] 40 65).medium_risk := by
  have h := classify_student_risk_default_buckets
    [⟨"a", [], 4, 40, 10⟩] ⟨"a", [], 4, 40, 10⟩ (by decide)
  exact ⟨by decide, (h.2.2.2.1 rfl).1⟩

/-- C9: for every submission list (empty included) and any thresholds, the
`stats` of `classify_student_risk` satisfy
`high_risk_count + medium_risk_count + low_risk_count = total_students =
len(submissions)`, with each count equal to the length of the
corresponding bucket list. -/
theorem classify_student_risk_counts (submissions : List Submission)
    (hi med : ℚ) :
    (classify_student_risk submissions hi med).stats.high_risk_count
        = (classify_student_risk submissions hi med).high_risk.length
    ∧ (classify_student_risk submissions hi med).stats.medium_risk_count
        = (classify_student_risk submissions hi med).medium_risk.length
    ∧ (classify_student_risk submissions hi med).stats.low_risk_count
        = (classify_student_risk submissions hi med).low_risk.length
    ∧ (classify_student_risk submissions hi med).stats.total_students
        = submissions.length
    ∧ (classify_student_risk submissions hi med).stats.high_risk_count
        + (classify_student_risk submissions hi med).stats.medium_risk_count
        + (classify_student_risk submissions hi med).stats.low_risk_count
        = submissions.length := by
  refine ⟨rfl, rfl, rfl, rfl, ?_⟩
  show (((submissions.filter
        (fun x => riskBucket hi med x.percentage = RiskLevel.high)).map
          student_data).insertionSort
        (fun a b => a.percentage ≤ b.percentage)).length
      + (((submissions.filter
          (fun x => riskBucket hi med x.percentage = RiskLevel.medium)).map
            student_data).insertionSort
          (fun a b => a.percentage ≤ b.percentage)).length
      + (((submissions.filter
          (fun x => riskBucket hi med x.percentage = RiskLevel.low)).map
            student_data).insertionSort
          (fun a b => b.percentage ≤ a.percentage)).length
      = submissions.length
  simp only [List.length_insertionSort, List.length_map]
  exact length_filter_riskBucket submissions hi med

/-- C2: for a non-empty submission list the readiness score before clamping
is the mean of the percentages plus three additive adjustments — `+5` when
the population standard deviation is below 15 (variance below `15 ^ 2`),
`+3` when the share of percentages `≥ 70` exceeds 50%, `-10` when the
share of percentages `< 40` exceeds 30% — every condition evaluated on the
unadjusted base metrics; the returned `readiness_score` is that sum
clamped to [0, 100] (and display-rounded to 2 decimals). -/
theorem calculate_class_readiness_additive (submissions : List Submission)
    (h : submissions ≠ []) :
    readinessAdjusted (submissions.map (·.percentage))
      = mean (submissions.map (·.percentage))
        + (if popVariance (submissions.map (·.percentage)) < 15 ^ 2 then 5 else 0)
        + (if 50 < (((submissions.map (·.percentage)).filter
                (fun p => 70 ≤ p)).length : ℚ)
              / ((submissions.map (·.percentage)).length : ℚ) * 100
           then 3 else 0)
        - (if 30 < (((submissions.map (·.percentage)).filter
                (fun p => p < 40)).length : ℚ)
              / ((submissions.map (·.percentage)).length : ℚ) * 100
           then 10 else 0)
    ∧ (calculate_class_readiness submissions).readiness_score
      = round2 (min 100 (max 0 (readinessAdjusted
          (submissions.map (·.percentage))))) := by
  constructor
  · simp only [readinessAdjusted]
    split_ifs <;> ring
  · obtain ⟨x, xs, rfl⟩ := List.exists_cons_of_ne_nil h
    rfl

/-- C2 witness: a single submission at 80% yields a readiness score of
80 + 5 + 3 = 88. -/
theorem calculate_class_readiness_additive_witness :
    ([(⟨"a", [], 8, 80, 10⟩ : Submission)] ≠ ([] : List Submission))
    ∧ (calculate_class_readiness [⟨"a", [], 8, 80, 10⟩]).readiness_score = 88
    ∧ round2 (min 100 (max 0 (readinessAdjusted
        ([(⟨"a", [], 8, 80, 10⟩ : Submission)].map (·.percentage))))) = 88 := by
  have h := calculate_class_readiness_additive [⟨"a", [], 8, 80, 10⟩] (by decide)
  refine ⟨by decide, ?_, ?_⟩
  · rw [h.2]
    norm_num [readinessAdjusted, mean, popVariance, round2, roundHalfEven]
  · norm_num [readinessAdjusted, mean, popVariance, round2, roundHalfEven]

/-- C3 counterexample: on the empty submission list the returned readiness
score is 0 — below 60 — yet the status is "No Data", not "Not Ready", so
the claimed status table does not hold for every submission list. -/
theorem calculate_class_readiness_empty_counterexample :
    (calculate_class_readiness []).readiness_score = 0
    ∧ (calculate_class_readiness []).readiness_score < 60
    ∧ (calculate_class_readiness []).status = "No Data"
    ∧ (calculate_class_readiness []).status ≠ "Not Ready" := by
  refine ⟨rfl, ?_, rfl, by decide⟩
  rw [show (calculate_class_readiness []).readiness_score = 0 from rfl]
  norm_num

/-- C3 (amended): the returned readiness score always lies in [0, 100] and
the recommendation string is never empty; for every non-empty submission
list the status is determined from the clamped score — `≥ 75` gives
"Exam Ready", `[60, 75)` gives "Borderline", `< 60` gives "Not Ready" —
each with its fixed status-specific recommendation; the empty list instead
returns status "No Data". -/
theorem calculate_class_readiness_bounds_status (submissions : List Submission) :
    0 ≤ (calculate_class_readiness submissions).readiness_score
    ∧ (calculate_class_readiness submissions).readiness_score ≤ 100
    ∧ (calculate_class_readiness submissions).recommendation ≠ ""
    ∧ (calculate_class_readiness []).status = "No Data"
    ∧ (submissions ≠ [] →
        (75 ≤ readinessClamped (submissions.map (·.percentage)) →
          (calculate_class_readiness submissions).status = "Exam Ready"
          ∧ (calculate_class_readiness submissions).recommendation
            = "Class is well-prepared. Focus on revision and practice.")
        ∧ (60 ≤ readinessClamped (submissions.map (·.percentage))
            ∧ readinessClamped (submissions.map (·.percentage)) < 75 →
          (calculate_class_readiness submissions).status = "Borderline"
          ∧ (calculate_class_readiness submissions).recommendation
            = "Class needs targeted intervention on weak topics. 1-2 weeks of focused revision recommended.")
        ∧ (readinessClamped (submissions.map (·.percentage)) < 60 →
          (calculate_class_readiness submissions).status = "Not Ready"
          ∧ (calculate_class_readiness submissions).recommendation
            = "Significant gaps identified. Conduct intensive revision sessions.")) := by
  cases submissions with
  | nil =>
      refine ⟨le_refl 0, ?_, by decide, rfl, ?_⟩
      · show (0 : ℚ) ≤ 100
        norm_num
      · intro h
        exact absurd rfl h
  | cons x xs =>
      have hc0 : 0 ≤ readinessClamped ((x :: xs).map (·.percentage)) := by
        unfold readinessClamped
        exact le_min (by norm_num) (le_max_left 0 _)
      have hc100 : readinessClamped ((x :: xs).map (·.percentage)) ≤ 100 :=
        min_le_left _ _
      have hsc : (calculate_class_readiness (x :: xs)).readiness_score
          = round2 (readinessClamped ((x :: xs).map (·.percentage))) := rfl
      have est : (calculate_class_readiness (x :: xs)).status
          = (if 75 ≤ readinessClamped ((x :: xs).map (·.percentage))
             then "Exam Ready"
             else if 60 ≤ readinessClamped ((x :: xs).map (·.percentage))
             then "Borderline" else "Not Ready") := rfl
      have erec : (calculate_class_readiness (x :: xs)).recommendation
          = (if 75 ≤ readinessClamped ((x :: xs).map (·.percentage))
             then "Class is well-prepared. Focus on revision and practice."
             else if 60 ≤ readinessClamped ((x :: xs).map (·.percentage))
             then "Class needs targeted intervention on weak topics. 1-2 weeks of focused revision recommended."
             else "Significant gaps identified. Conduct intensive revision sessions.") := rfl
      refine ⟨?_, ?_, ?_, rfl, ?_⟩
      · rw [hsc]; exact round2_nonneg _ hc0
      · rw [hsc]; exact round2_le_100 _ hc100
      · rw [erec]
        split_ifs <;> decide
      · intro _
        refine ⟨?_, ?_, ?_⟩
        · intro h75
          rw [est, erec, if_pos h75, if_pos h75]
          exact ⟨rfl, rfl⟩
        · rintro ⟨h60, h75⟩
          rw [est, erec, if_neg (by linarith), if_pos h60,
            if_neg (by linarith), if_pos h60]
          exact ⟨rfl, rfl⟩
        · intro h60
          rw [est, erec, if_neg (by linarith), if_neg (by linarith),
            if_neg (by linarith), if_neg (by linarith)]
          exact ⟨rfl, rfl⟩

/-- C3 witness: a single submission at 80% has clamped score 88 ≥ 75 and is
reported "Exam Ready". -/
theorem calculate_class_readiness_bounds_status_witness :
    ([(⟨"a", [], 8, 80, 10⟩ : Submission)] ≠ ([] : List Submission))
    ∧ (75 : ℚ) ≤ readinessClamped
        ([(⟨"a", [], 8, 80, 10⟩ : Submission)].map (·.percentage))
    ∧ (calculate_class_readiness [⟨"a", [], 8, 80, 10⟩]).status = "Exam Ready" := by
  have h := calculate_class_readiness_bounds_status [⟨"a", [], 8, 80, 10⟩]
  have h75 : (75 : ℚ) ≤ readinessClamped
      ([(⟨"a", [], 8, 80, 10⟩ : Submission)].map (·.percentage)) := by
    norm_num [readinessClamped, readinessAdjusted, mean, popVariance]
  exact ⟨by decide, h75, ((h.2.2.2.2 (by decide)).1 h75).1⟩

/-- C4 counterexample: the joiner compares options WITHOUT whitespace
trimming — for the answer " a " against correct option "A" the produced
response has `is_correct = false`, although the trimmed case-insensitive
comparison claimed by the spec evaluates to true. -/
theorem is_correct_trimming_counterexample :
    (prepare_analytics_data [⟨"q1", "txt", "T", "A"⟩]
        [⟨"bob", [("q1", " a ")], 1, 100, 1⟩]).map Response.is_correct
      = [false]
    ∧ specTrimmedComparison " a " "A" = true := ⟨rfl, rfl⟩

/-- C4 (amended): for every response produced by the joiner, `is_correct`
holds iff the selected option and the matched question's correct option are
equal under CASE-INSENSITIVE comparison with NO whitespace trimming (so
" a " versus "A" counts as incorrect); the compared correct option is the
one of the question matching the response's `question_id`. -/
theorem is_correct_case_insensitive_untrimmed (questions : List Question)
    (submissions : List Submission) (r : Response)
    (hr : r ∈ prepare_analytics_data questions submissions) :
    r.is_correct = (strUpper r.selected_option == strUpper r.correct_option)
    ∧ ∃ q, questions_lookup questions r.question_id = some q
        ∧ r.correct_option = q.correct_option := by
  unfold prepare_analytics_data at hr
  rw [List.mem_flatMap] at hr
  obtain ⟨s, hs, hr⟩ := hr
  rw [List.mem_filterMap] at hr
  obtain ⟨pair, hpair, hmk⟩ := hr
  unfold makeResponse at hmk
  cases hq : questions_lookup questions pair.1 with
  | none =>
      simp only [hq] at hmk
      exact Option.noConfusion hmk
  | some q =>
      simp only [hq] at hmk
      obtain rfl := Option.some.inj hmk
      exact ⟨rfl, q, hq, rfl⟩

/-- C4 witness: the answer "a" against correct option "A" yields a response
whose `is_correct` agrees with the untrimmed case-insensitive comparison. -/
theorem is_correct_case_insensitive_untrimmed_witness :
    (⟨"bob", "q1", "txt", "T", "A", "a",
        strUpper "a" == strUpper "A", 1, 100⟩ : Response)
      ∈ prepare_analytics_data [⟨"q1", "txt", "T", "A"⟩]
          [⟨"bob", [("q1", "a")], 1, 100, 1⟩]
    ∧ (⟨"bob", "q1", "txt", "T", "A", "a",
        strUpper "a" == strUpper "A", 1, 100⟩ : Response).is_correct
      = (strUpper "a" == strUpper "A") := by
  have e : prepare_analytics_data [⟨"q1", "txt", "T", "A"⟩]
      [⟨"bob", [("q1", "a")], 1, 100, 1⟩]
      = [⟨"bob", "q1", "txt", "T", "A", "a",
          strUpper "a" == strUpper "A", 1, 100⟩] := rfl
  have hmem : (⟨"bob", "q1", "txt", "T", "A", "a",
      strUpper "a" == strUpper "A", 1, 100⟩ : Response)
      ∈ prepare_analytics_data [⟨"q1", "txt", "T", "A"⟩]
          [⟨"bob", [("q1", "a")], 1, 100, 1⟩] := by
    rw [e]
    exact List.mem_singleton_self _
  exact ⟨hmem,
    (is_correct_case_insensitive_untrimmed _ _ _ hmem).1⟩

/-- C5 counterexample: with questions on topics "T1" and "T2" and three
students all answering only the "T1" question (one of them correctly), the
unattempted topic "T2" is absent from the result — not reported with
accuracy 0 — and the reported "T1" accuracy is the two-decimal rounding
33.33, not the exact 100 * 1 / 3 the claim states. -/
theorem calculate_topic_performance_counterexample :
    List.lookup "T2" (calculate_topic_performance
        [⟨"q1", "w", "T1", "A"⟩, ⟨"q2", "w", "T2", "B"⟩]
        [⟨"u", [("q1", "A")], 1, 50, 2⟩, ⟨"v", [("q1", "B")], 0, 0, 2⟩,
         ⟨"x", [("q1", "b")], 0, 0, 2⟩]) = none
    ∧ "T2" ∈ ([⟨"q1", "w", "T1", "A"⟩,
        ⟨"q2", "w", "T2", "B"⟩] : List Question).map (fun q => q.topic)
    ∧ (List.lookup "T1" (calculate_topic_performance
        [⟨"q1", "w", "T1", "A"⟩, ⟨"q2", "w", "T2", "B"⟩]
        [⟨"u", [("q1", "A")], 1, 50, 2⟩, ⟨"v", [("q1", "B")], 0, 0, 2⟩,
         ⟨"x", [("q1", "b")], 0, 0, 2⟩])).map TopicStat.correct = some 1
    ∧ (List.lookup "T1" (calculate_topic_performance
        [⟨"q1", "w", "T1", "A"⟩, ⟨"q2", "w", "T2", "B"⟩]
        [⟨"u", [("q1", "A")], 1, 50, 2⟩, ⟨"v", [("q1", "B")], 0, 0, 2⟩,
         ⟨"x", [("q1", "b")], 0, 0, 2⟩])).map TopicStat.total_attempts = some 3
    ∧ (List.lookup "T1" (calculate_topic_performance
        [⟨"q1", "w", "T1", "A"⟩, ⟨"q2", "w", "T2", "B"⟩]
        [⟨"u", [("q1", "A")], 1, 50, 2⟩, ⟨"v", [("q1", "B")], 0, 0, 2⟩,
         ⟨"x", [("q1", "b")], 0, 0, 2⟩])).map TopicStat.accuracy
      = some (round2 (((1 : ℕ) : ℚ) / ((3 : ℕ) : ℚ) * 100))
    ∧ round2 (((1 : ℕ) : ℚ) / ((3 : ℕ) : ℚ) * 100) ≠ 100 * 1 / 3 := by
  refine ⟨rfl, by decide, rfl, rfl, rfl, ?_⟩
  push_cast
  norm_num [round2, roundHalfEven]

/-- C5 (amended): every topic occurring among the produced responses (i.e.
attempted at least once) gets exactly one entry, whose `total_questions` is
the number of supplied Questions with that topic (independent of how many
were attempted), whose `total_attempts` is at least 1, and whose accuracy
is `100 * correct / total_attempts` rounded to two decimals; a topic none
of whose questions was answered is omitted from the result rather than
reported with accuracy 0. -/
theorem calculate_topic_performance_attempted (questions : List Question)
    (submissions : List Submission) (topic : String) :
    (topic ∈ (prepare_analytics_data questions submissions).map
        (fun r => r.topic) →
      ∃ st, List.lookup topic
            (calculate_topic_performance questions submissions) = some st
        ∧ st.total_questions
            = (questions.filter (fun q => q.topic = topic)).length
        ∧ st.total_attempts
            = ((prepare_analytics_data questions submissions).filter
                (fun r => r.topic = topic)).length
        ∧ st.correct
            = (((prepare_analytics_data questions submissions).filter
                (fun r => r.topic = topic)).filter
                  (fun r => r.is_correct)).length
        ∧ 1 ≤ st.total_attempts
        ∧ st.accuracy
            = round2 ((st.correct : ℚ) / (st.total_attempts : ℚ) * 100))
    ∧ (topic ∉ (prepare_analytics_data questions submissions).map
        (fun r => r.topic) →
      List.lookup topic
        (calculate_topic_performance questions submissions) = none) := by
  have hlu : List.lookup topic (calculate_topic_performance questions submissions)
      = if topic ∈ uniqueFirst ((prepare_analytics_data questions submissions).map
            (fun r => r.topic))
        then some (topicStatOf questions
            (prepare_analytics_data questions submissions) topic)
        else none := by
    rw [show calculate_topic_performance questions submissions
        = (uniqueFirst ((prepare_analytics_data questions submissions).map
            (fun r => r.topic))).map
            (fun x => (x, topicStatOf questions
              (prepare_analytics_data questions submissions) x)) from rfl,
      lookup_map_self]
  constructor
  · intro hmem
    have hmem2 : topic ∈ uniqueFirst
        ((prepare_analytics_data questions submissions).map (fun r => r.topic)) :=
      (mem_uniqueFirst _ _).mpr hmem
    obtain ⟨r, hr, hrt⟩ := List.mem_map.mp hmem
    have hrf : r ∈ (prepare_analytics_data questions submissions).filter
        (fun r => r.topic = topic) :=
      List.mem_filter.mpr ⟨hr, by simp [hrt]⟩
    have hpos : 0 < ((prepare_analytics_data questions submissions).filter
        (fun r => r.topic = topic)).length :=
      List.length_pos.mpr (List.ne_nil_of_mem hrf)
    have hacc : (topicStatOf questions
        (prepare_analytics_data questions submissions) topic).accuracy
        = round2 (if 0 < ((prepare_analytics_data questions submissions).filter
              (fun r => r.topic = topic)).length
          then ((((prepare_analytics_data questions submissions).filter
                (fun r => r.topic = topic)).filter
                  (fun r => r.is_correct)).length : ℚ)
              / (((prepare_analytics_data questions submissions).filter
                (fun r => r.topic = topic)).length : ℚ) * 100
          else 0) := rfl
    refine ⟨topicStatOf questions
        (prepare_analytics_data questions submissions) topic,
      ?_, rfl, rfl, rfl, ?_, ?_⟩
    · rw [hlu, if_pos hmem2]
    · show 1 ≤ ((prepare_analytics_data questions submissions).filter
        (fun r => r.topic = topic)).length
      omega
    · rw [hacc, if_pos hpos]
      rfl
  · intro hnot
    rw [hlu, if_neg (fun h => hnot ((mem_uniqueFirst _ _).mp h))]

/-- C5 witness: for the attempted topic "T1" of the counterexample input
the reported entry has `total_questions = 1` and `total_attempts = 3`. -/
theorem calculate_topic_performance_attempted_witness :
    "T1" ∈ (prepare_analytics_data
        [⟨"q1", "w", "T1", "A"⟩, ⟨"q2", "w", "T2", "B"⟩]
        [⟨"u", [("q1", "A")], 1, 50, 2⟩, ⟨"v", [("q1", "B")], 0, 0, 2⟩,
         ⟨"x", [("q1", "b")], 0, 0, 2⟩]).map (fun r => r.topic)
    ∧ ∃ st, List.lookup "T1" (calculate_topic_performance
        [⟨"q1", "w", "T1", "A"⟩, ⟨"q2", "w", "T2", "B"⟩]
        [⟨"u", [("q1", "A")], 1, 50, 2⟩, ⟨"v", [("q1", "B")], 0, 0, 2⟩,
         ⟨"x", [("q1", "b")], 0, 0, 2⟩]) = some st
      ∧ st.total_questions = 1 ∧ st.total_attempts = 3 := by
  have hmem : "T1" ∈ (prepare_analytics_data
      [⟨"q1", "w", "T1", "A"⟩, ⟨"q2", "w", "T2", "B"⟩]
      [⟨"u", [("q1", "A")], 1, 50, 2⟩, ⟨"v", [("q1", "B")], 0, 0, 2⟩,
       ⟨"x", [("q1", "b")], 0, 0, 2⟩]).map (fun r => r.topic) := by decide
  obtain ⟨st, hlu, htq, hta, _, _, _⟩ :=
    (calculate_topic_performance_attempted
      [⟨"q1", "w", "T1", "A"⟩, ⟨"q2", "w", "T2", "B"⟩]
      [⟨"u", [("q1", "A")], 1, 50, 2⟩, ⟨"v", [("q1", "B")], 0, 0, 2⟩,
       ⟨"x", [("q1", "b")], 0, 0, 2⟩] "T1").1 hmem
  refine ⟨hmem, st, hlu, ?_, ?_⟩
  · rw [htq]
    rfl
  · rw [hta]
    rfl

/-- C6: answers whose `question_id` matches no supplied Question are
silently skipped by the joiner: erasing them from every submission changes
neither the produced responses nor any topic statistic, and every produced
response refers to a known question — so an orphan pair contributes to no
TopicStat while the submission's other answers are aggregated normally
(totality of the Lean functions models the absence of an exception). -/
theorem orphan_answers_skipped (questions : List Question)
    (submissions : List Submission) :
    prepare_analytics_data questions
        (submissions.map (fun s =>
          { s with answers := s.answers.filter (fun a => (questions_lookup questions a.1).isSome) }))
      = prepare_analytics_data questions submissions
    ∧ calculate_topic_performance questions
        (submissions.map (fun s =>
          { s with answers := s.answers.filter (fun a => (questions_lookup questions a.1).isSome) }))
      = calculate_topic_performance questions submissions
    ∧ ∀ r ∈ prepare_analytics_data questions submissions,
        (questions_lookup questions r.question_id).isSome = true := by
  have per : ∀ s : Submission,
      (s.answers.filter
          (fun a => (questions_lookup questions a.1).isSome)).filterMap
        (makeResponse questions s)
        = s.answers.filterMap (makeResponse questions s) := by
    intro s
    apply filterMap_filter_of_none
    intro a ha
    apply makeResponse_eq_none_of_lookup_none
    cases hq : questions_lookup questions a.1 with
    | none => rfl
    | some q =>
        rw [hq] at ha
        simp at ha
  have h1 : prepare_analytics_data questions
      (submissions.map (fun s =>
        { s with answers := s.answers.filter (fun a => (questions_lookup questions a.1).isSome) }))
      = prepare_analytics_data questions submissions := by
    unfold prepare_analytics_data
    induction submissions with
    | nil => rfl
    | cons s t ih =>
        rw [List.map_cons, List.flatMap_cons, List.flatMap_cons]
        rw [show ({ s with answers := s.answers.filter (fun a => (questions_lookup questions a.1).isSome) } :
                Submission).answers.filterMap
            (makeResponse questions
              { s with answers := s.answers.filter (fun a => (questions_lookup questions a.1).isSome) })
            = (s.answers.filter
                (fun a => (questions_lookup questions a.1).isSome)).filterMap
              (makeResponse questions s) from rfl]
        rw [per s, ih]
  refine ⟨h1, ?_, ?_⟩
  · simp only [calculate_topic_performance]
    rw [h1]
  · intro r hr
    unfold prepare_analytics_data at hr
    rw [List.mem_flatMap] at hr
    obtain ⟨s, _, hr⟩ := hr
    rw [List.mem_filterMap] at hr
    obtain ⟨pair, _, hmk⟩ := hr
    unfold makeResponse at hmk
    cases hq : questions_lookup questions pair.1 with
    | none =>
        simp only [hq] at hmk
        exact Option.noConfusion hmk
    | some q =>
        simp only [hq] at hmk
        obtain rfl := Option.some.inj hmk
        show (questions_lookup questions pair.1).isSome = true
        rw [hq]
        rfl

/-- C6 witness: a submission answering both a known question "q1" and an
unknown id "zz" produces exactly the response for "q1", whose question id
resolves to a supplied Question. -/
theorem orphan_answers_skipped_witness :
    (⟨"bob", "q1", "w", "T", "A", "A",
        strUpper "A" == strUpper "A", 1, 100⟩ : Response)
      ∈ prepare_analytics_data [⟨"q1", "w", "T", "A"⟩]
          [⟨"bob", [("q1", "A"), ("zz", "B")], 1, 100, 1⟩]
    ∧ (questions_lookup [(⟨"q1", "w", "T", "A"⟩ : Question)] "q1").isSome
        = true := by
  have hmem : (⟨"bob", "q1", "w", "T", "A", "A",
      strUpper "A" == strUpper "A", 1, 100⟩ : Response)
      ∈ prepare_analytics_data [⟨"q1", "w", "T", "A"⟩]
          [⟨"bob", [("q1", "A"), ("zz", "B")], 1, 100, 1⟩] := by
    rw [show prepare_analytics_data [⟨"q1", "w", "T", "A"⟩]
        [⟨"bob", [("q1", "A"), ("zz", "B")], 1, 100, 1⟩]
        = [⟨"bob", "q1", "w", "T", "A", "A",
            strUpper "A" == strUpper "A", 1, 100⟩] from rfl]
    exact List.mem_singleton_self _
  exact ⟨hmem,
    (orphan_answers_skipped [⟨"q1", "w", "T", "A"⟩]
      [⟨"bob", [("q1", "A"), ("zz", "B")], 1, 100, 1⟩]).2.2 _ hmem⟩

/-- C7: on the empty submission list `generate_comprehensive_analytics`
returns exactly the two-field no-data value (error message plus
`has_data = false`) and nothing else; on every non-empty list it returns
the full `has_data = true` report composed of the topic, risk, readiness
and statistics results. -/
theorem generate_comprehensive_analytics_shape (questions : List Question)
    (submissions : List Submission) :
    generate_comprehensive_analytics questions []
        = .noData "No submissions available"
    ∧ (generate_comprehensive_analytics questions []).has_data = false
    ∧ (submissions ≠ [] →
        generate_comprehensive_analytics questions submissions
          = .withData
              { total_submissions := submissions.length
                total_questions := questions.length
                topic_performance :=
                  calculate_topic_performance questions submissions
                weak_topics := identify_weak_topics
                  (calculate_topic_performance questions submissions)
                strong_topics := identify_strong_topics
                  (calculate_topic_performance questions submissions)
                risk_classification := classify_student_risk submissions
                class_readiness := calculate_class_readiness submissions
                statistics := calculate_test_statistics submissions }
          ∧ (generate_comprehensive_analytics questions submissions).has_data
              = true) := by
  refine ⟨rfl, rfl, ?_⟩
  intro h
  obtain ⟨x, xs, rfl⟩ := List.exists_cons_of_ne_nil h
  exact ⟨rfl, rfl⟩

/-- C7 witness: a one-submission input yields a report with
`has_data = true`. -/
theorem generate_comprehensive_analytics_shape_witness :
    ([(⟨"a", [], 8, 80, 10⟩ : Submission)] ≠ ([] : List Submission))
    ∧ (generate_comprehensive_analytics []
        [⟨"a", [], 8, 80, 10⟩]).has_data = true := by
  have h := generate_comprehensive_analytics_shape [] [⟨"a", [], 8, 80, 10⟩]
  exact ⟨by decide, (h.2.2 (by decide)).2⟩

theorem compare_student_to_class_some (student_submission : Submission)
    (all_submissions : List Submission)
    (hne : ¬((all_submissions.map (fun s => s.percentage)).length = 0))
    (hsm : student_submission.percentage
      ∈ (all_submissions.map (fun s => s.percentage)).insertionSort
        (fun a b => b ≤ a)) :
    compare_student_to_class student_submission all_submissions
      = some
        { student_percentage := round2 student_submission.percentage
          class_average :=
            round2 (mean (all_submissions.map (fun s => s.percentage)))
          difference := round2 (student_submission.percentage
            - mean (all_submissions.map (fun s => s.percentage)))
          percentile := round2
            ((((all_submissions.map (fun s => s.percentage)).filter
                (fun p => p ≤ student_submission.percentage)).length : ℚ)
              / ((all_submissions.map (fun s => s.percentage)).length : ℚ)
              * 100)
          rank := ((all_submissions.map (fun s => s.percentage)).insertionSort
              (fun a b => b ≤ a)).indexOf student_submission.percentage + 1
          total_students := all_submissions.length
          performance_category :=
            if 75 ≤ (((all_submissions.map (fun s => s.percentage)).filter
                (fun p => p ≤ student_submission.percentage)).length : ℚ)
                / ((all_submissions.map (fun s => s.percentage)).length : ℚ)
                * 100
            then "Top Performer"
            else if 50 ≤ (((all_submissions.map (fun s => s.percentage)).filter
                (fun p => p ≤ student_submission.percentage)).length : ℚ)
                / ((all_submissions.map (fun s => s.percentage)).length : ℚ)
                * 100
            then "Above Average"
            else if 25 ≤ (((all_submissions.map (fun s => s.percentage)).filter
                (fun p => p ≤ student_submission.percentage)).length : ℚ)
                / ((all_submissions.map (fun s => s.percentage)).length : ℚ)
                * 100
            then "Below Average"
            else "Needs Support" } := by
  simp only [compare_student_to_class]
  rw [if_neg hne, if_pos hsm]

/-- C8 counterexample: in a three-student cohort the student with the
lowest percentage has `100 * count / N = 100 * 1 / 3`, but the code
returns `round(percentile, 2)`, i.e. the two-decimal rounding 33.33, so
the claimed exact equality with `100 * count / N` fails. -/
theorem compare_student_to_class_percentile_counterexample :
    (compare_student_to_class ⟨"a", [], 3, 30, 10⟩
        [⟨"a", [], 3, 30, 10⟩, ⟨"b", [], 5, 50, 10⟩,
         ⟨"c", [], 7, 70, 10⟩]).map ComparisonResult.percentile
      = some (round2 (((1 : ℕ) : ℚ) / ((3 : ℕ) : ℚ) * 100))
    ∧ round2 (((1 : ℕ) : ℚ) / ((3 : ℕ) : ℚ) * 100) ≠ 100 * 1 / 3 := by
  refine ⟨rfl, ?_⟩
  push_cast
  norm_num [round2, roundHalfEven]

/-- C8 (amended): when the student's percentage occurs in the cohort,
`compare_student_to_class` reports percentile
`100 * (count of percentages ≤ the student's) / N` (inclusive of self)
ROUNDED TO TWO DECIMALS, and rank `1 +` the first index of the
student's percentage in the descending sort of all percentages; hence a
student holding the maximum percentage has rank 1, and any two submissions
sharing the same percentage receive the same rank. -/
theorem compare_student_to_class_rank (student_submission : Submission)
    (all_submissions : List Submission)
    (hmem : student_submission.percentage
      ∈ all_submissions.map (fun s => s.percentage)) :
    ∃ r, compare_student_to_class student_submission all_submissions = some r
      ∧ r.percentile = round2
          ((((all_submissions.map (fun s => s.percentage)).filter
              (fun p => p ≤ student_submission.percentage)).length : ℚ)
            / ((all_submissions.map (fun s => s.percentage)).length : ℚ) * 100)
      ∧ r.rank = ((all_submissions.map (fun s => s.percentage)).insertionSort
            (fun a b => b ≤ a)).indexOf student_submission.percentage + 1
      ∧ ((∀ p ∈ all_submissions.map (fun s => s.percentage),
            p ≤ student_submission.percentage) → r.rank = 1)
      ∧ (∀ s2 : Submission, s2.percentage = student_submission.percentage →
          ∃ r2, compare_student_to_class s2 all_submissions = some r2
            ∧ r2.rank = r.rank) := by
  have hne : ¬((all_submissions.map (fun s => s.percentage)).length = 0) := by
    intro h0
    rw [List.length_eq_zero] at h0
    rw [h0] at hmem
    exact absurd hmem (List.not_mem_nil _)
  have hsm : student_submission.percentage
      ∈ (all_submissions.map (fun s => s.percentage)).insertionSort
        (fun a b => b ≤ a) :=
    (List.mem_insertionSort _).mpr hmem
  refine ⟨_, compare_student_to_class_some student_submission all_submissions
    hne hsm, rfl, rfl, ?_, ?_⟩
  · intro hmax
    show ((all_submissions.map (fun s => s.percentage)).insertionSort
        (fun a b => b ≤ a)).indexOf student_submission.percentage + 1 = 1
    have hsorted : List.Sorted (fun a b : ℚ => b ≤ a)
        ((all_submissions.map (fun s => s.percentage)).insertionSort
          (fun a b => b ≤ a)) :=
      List.sorted_insertionSort _ _
    cases hsl : (all_submissions.map (fun s => s.percentage)).insertionSort
        (fun a b => b ≤ a) with
    | nil =>
        rw [hsl] at hsm
        exact absurd hsm (List.not_mem_nil _)
    | cons hd tl =>
        have hhd_mem : hd ∈ all_submissions.map (fun s => s.percentage) := by
          rw [← List.mem_insertionSort (fun a b : ℚ => b ≤ a), hsl]
          exact List.mem_cons_self _ _
        have h_le : hd ≤ student_submission.percentage := hmax hd hhd_mem
        have h_ge : student_submission.percentage ≤ hd := by
          rw [hsl] at hsm
          rcases List.mem_cons.mp hsm with heq | hmem_tl
          · rw [heq]
          · rw [hsl] at hsorted
            exact (List.sorted_cons.mp hsorted).1 _ hmem_tl
        have heq : hd = student_submission.percentage := le_antisymm h_le h_ge
        rw [← heq, List.indexOf_cons_self]
  · intro s2 hs2
    have hsm2 : s2.percentage
        ∈ (all_submissions.map (fun s => s.percentage)).insertionSort
          (fun a b => b ≤ a) := by
      rw [hs2]
      exact hsm
    refine ⟨_, compare_student_to_class_some s2 all_submissions hne hsm2, ?_⟩
    show ((all_submissions.map (fun s => s.percentage)).insertionSort
        (fun a b => b ≤ a)).indexOf s2.percentage + 1
      = ((all_submissions.map (fun s => s.percentage)).insertionSort
        (fun a b => b ≤ a)).indexOf student_submission.percentage + 1
    rw [hs2]

/-- C8 witness: in a singleton cohort the student holds the maximum and is
ranked 1. -/
theorem compare_student_to_class_rank_witness :
    (⟨"d", [], 9, 90, 10⟩ : Submission).percentage
      ∈ [(⟨"d", [], 9, 90, 10⟩ : Submission)].map (fun s => s.percentage)
    ∧ ∃ r, compare_student_to_class ⟨"d", [], 9, 90, 10⟩
        [⟨"d", [], 9, 90, 10⟩] = some r ∧ r.rank = 1 := by
  have hm : (⟨"d", [], 9, 90, 10⟩ : Submission).percentage
      ∈ [(⟨"d", [], 9, 90, 10⟩ : Submission)].map (fun s => s.percentage) :=
    List.mem_map_of_mem _ (List.mem_singleton_self _)
  obtain ⟨r, hr, _, _, hmax, _⟩ :=
    compare_student_to_class_rank ⟨"d", [], 9, 90, 10⟩
      [⟨"d", [], 9, 90, 10⟩] hm
  refine ⟨hm, r, hr, hmax ?_⟩
  intro p hp
  have hp90 : p = (90 : ℚ) := by simpa using hp
  rw [hp90]

/-- C10: `compare_student_to_class` produces a result exactly when the
student's percentage occurs among the cohort's percentages — on the empty
cohort it fails (the percentile computation divides by zero), and when the
exact percentage is absent the rank lookup by list index fails; both
failure modes are `none` in the embedding. -/
theorem compare_student_to_class_partial (student_submission : Submission)
    (all_submissions : List Submission) :
    ((compare_student_to_class student_submission all_submissions).isSome
        = true
      ↔ student_submission.percentage
          ∈ all_submissions.map (fun s => s.percentage))
    ∧ compare_student_to_class student_submission [] = none := by
  constructor
  · by_cases hne : (all_submissions.map (fun s => s.percentage)).length = 0
    · have hnil : all_submissions.map (fun s => s.percentage) = [] :=
        List.length_eq_zero.mp hne
      simp only [compare_student_to_class]
      rw [if_pos hne, hnil]
      simp
    · simp only [compare_student_to_class]
      rw [if_neg hne]
      by_cases hm : student_submission.percentage
          ∈ (all_submissions.map (fun s => s.percentage)).insertionSort
            (fun a b => b ≤ a)
      · rw [if_pos hm]
        have hmem2 : student_submission.percentage
            ∈ all_submissions.map (fun s => s.percentage) :=
          (List.mem_insertionSort _).mp hm
        simp only [Option.isSome_some, true_iff]
        exact hmem2
      · rw [if_neg hm]
        simp only [Option.isSome_none, Bool.false_eq_true, false_iff]
        intro hcon
        exact hm ((List.mem_insertionSort _).mpr hcon)
  · rfl
